import Mathlib

/-!
Shallow embedding of the core data pipeline of `src/app.py` (Qualiscy):

* the catalog store (`load_revistas`, decorated with `st.cache_data`),
* the ranking filter (`filtrar_revistas`),
* the Crossref literature retriever (`buscar_artigos_crossref`),
* the prompt / context assembly of `gerar_relatorio_ia`.

Machine-level conventions of the embedding:

* a pandas cell is `Option String` (`none` models `NaN` / a missing value);
* a pandas `DataFrame` is a list of column names plus a list of rows, a row
  being an association list from column name to cell;
* `pd.read_csv` and the HTTP transport are not part of `src/`, so their
  outcomes are passed in as explicit parameters (a value or a raised error);
* Python exceptions are modelled with `Except`: code outside a
  `try/except` that raises is an `.error` outcome;
* `pandas.Series.str.contains(pat, case=False, na=False)` is modelled as
  case-insensitive literal substring containment (the default regex
  reading coincides with this for metacharacter-free patterns, which is
  what the app passes);
* `DataFrame.sort_values` (quicksort, unstable) is modelled by insertion
  sort on the categorical rank; no claim in scope depends on tie order.
-/

namespace Qualiscy

/-- A cell of the catalog table; `none` models pandas `NaN`. -/
abbrev Cell := Option String

/-- One catalog row: association list from column name to cell value. -/
abbrev Row := List (String × Cell)

/-- In-memory table mirroring the pandas `DataFrame` used by `app.py`. -/
structure DataFrame where
  cols : List String
  rows : List Row
deriving DecidableEq

/-- Access a cell by column name; an absent entry reads as `NaN`
(matching `str.contains(..., na=False)` which treats `NaN` as no-match). -/
def getCell (r : Row) (c : String) : Cell :=
  match r.lookup c with
  | some v => v
  | none => none

/-- Case-insensitive literal substring test, modelling
`Series.str.contains(pat, case=False, na=False)` on one cell. -/
def containsCI (cell : Cell) (pat : String) : Bool :=
  match cell with
  | none => false
  | some s => decide ((pat.data.map Char.toLower) <:+: (s.data.map Char.toLower))

/-- The row-selection mask built by `filtrar_revistas`: the `area` substring
match, narrowed - when `subarea` is truthy - by the `escopo` column if it
exists, else by the `subarea` column if it exists, else not at all. -/
def rowMask (df : DataFrame) (area : String) (subarea : Option String) (r : Row) : Bool :=
  let base := containsCI (getCell r "area") area
  match subarea with
  | some s =>
      if s ≠ "" then
        if "escopo" ∈ df.cols then base && containsCI (getCell r "escopo") s
        else if "subarea" ∈ df.cols then base && containsCI (getCell r "subarea") s
        else base
      else base
  | none => base

/-- The fixed ordered Qualis vocabulary `ordem_qualis` of `app.py`. -/
def ordem_qualis : List String := ["A1", "A2", "A3", "A4", "B1", "B2", "B3", "B4", "C"]

/-- Rank of a tier cell under the ordered categorical: position in
`ordem_qualis`, with unrecognized values and `NaN` after all recognized
tiers (`List.indexOf` returns the length, `9`, when the value is absent,
and pandas `sort_values` puts `NaN` last by default). -/
def tierRank (v : Cell) : Nat :=
  match v with
  | some s => ordem_qualis.indexOf s
  | none => ordem_qualis.length

/-- `astype(cat_type)` on the `estrato_qualis` cell: values outside the
category vocabulary become `NaN` (no error is raised). -/
def toQualisCat (v : Cell) : Cell :=
  match v with
  | some s => if s ∈ ordem_qualis then some s else none
  | none => none

/-- The in-place column assignment
`filtrado["estrato_qualis"] = filtrado["estrato_qualis"].astype(cat_type)`,
applied to one row of the (copied) filtered frame. -/
def astypeQualis (r : Row) : Row :=
  r.map (fun p => if p.1 = "estrato_qualis" then (p.1, toQualisCat p.2) else p)

/-- Sort key of a row for `sort_values("estrato_qualis")`. -/
def rowRank (r : Row) : Nat := tierRank (getCell r "estrato_qualis")

/-- Core of `filtrar_revistas`, given the already-loaded catalog `df`:
build the mask, take the matching rows (of a copy), and - only when the
`estrato_qualis` column exists - convert the tier column to the ordered
categorical and sort by it. -/
def filtrar_core (df : DataFrame) (area : String) (subarea : Option String) : DataFrame :=
  let filtrado := df.rows.filter (rowMask df area subarea)
  if "estrato_qualis" ∈ df.cols then
    { cols := df.cols
      rows := List.insertionSort (fun a b => rowRank a ≤ rowRank b) (filtrado.map astypeQualis) }
  else
    { cols := df.cols, rows := filtrado }

/-- Outcome of `pd.read_csv(DATA_PATH)`: the backing file may be missing or
malformed (modelled as a raised error carrying its message) or parse into a
table. The file system and the pandas reader live outside `src/`, so the
outcome is a parameter of the embedding. -/
inductive ReadResult where
  | failure (err : String)
  | table (df : DataFrame)
deriving DecidableEq

/-- The column-name normalization of `load_revistas`:
`df.columns = [c.strip().lower() for c in df.columns]`. -/
def normCol (c : String) : String := c.trim.toLower

/-- Column normalization applied to the whole frame (a pandas column rename
renames the key under which every row's cells are reachable). -/
def normalizeCols (df : DataFrame) : DataFrame :=
  { cols := df.cols.map normCol
    rows := df.rows.map (fun r => r.map (fun p => (normCol p.1, p.2))) }

/-- The process-wide cache installed by the `st.cache_data` decorator on
`load_revistas`. -/
structure CacheState where
  cached : Option DataFrame
deriving DecidableEq

/-- `load_revistas` with its cache made explicit: a hit returns the cached
table unchanged; a miss runs `pd.read_csv` - a raised error propagates
uncaught (there is no `try/except`) and nothing is cached; on success the
column-normalized table is returned and cached. -/
def load_revistas (read : ReadResult) (s : CacheState) :
    Except String DataFrame × CacheState :=
  match s.cached with
  | some df => (.ok df, s)
  | none =>
      match read with
      | .failure e => (.error e, s)
      | .table df =>
          let d := normalizeCols df
          (.ok d, { cached := some d })

/-- `filtrar_revistas(area, subarea)`: loads the catalog (through the
cache), then filters and sorts; a load error propagates uncaught. -/
def filtrar_revistas (read : ReadResult) (area : String) (subarea : Option String)
    (s : CacheState) : Except String DataFrame × CacheState :=
  match load_revistas read s with
  | (.ok df, s') => (.ok (filtrar_core df area subarea), s')
  | (.error e, s') => (.error e, s')

/-- Concrete three-row catalog with a tier column (one unrecognized tier),
used to witness the tier-sorting theorem. -/
def dfTier : DataFrame :=
  { cols := ["area", "estrato_qualis"]
    rows := [[("area", some "Engenharia"), ("estrato_qualis", some "B1")],
             [("area", some "Engenharia"), ("estrato_qualis", some "ZZ")],
             [("area", some "Engenharia"), ("estrato_qualis", some "A2")]] }

/-- Concrete catalog exposing an `escopo` column, used to witness the
narrowing theorem. -/
def dfEscopo : DataFrame :=
  { cols := ["area", "escopo"]
    rows := [[("area", some "Engenharia"), ("escopo", some "saneamento basico rural")],
             [("area", some "Engenharia"), ("escopo", some "estruturas metalicas")]] }

/-- Concrete catalog with no tier column, used to witness the
order-preservation theorem. -/
def dfNoTier : DataFrame :=
  { cols := ["area", "nome"]
    rows := [[("area", some "Direito"), ("nome", some "Revista A")],
             [("area", some "Engenharia"), ("nome", some "Revista B")],
             [("area", some "Engenharia"), ("nome", some "Revista C")]] }

/-- JSON-like values making up the Crossref response body. -/
inductive Json where
  | null
  | str (s : String)
  | num (n : Int)
  | arr (elems : List Json)
  | obj (fields : List (String × Json))

/-- The Python exceptions the normalization code can raise. -/
inductive PyErr where
  | indexError
  | keyError
  | typeError
  | attributeError
deriving DecidableEq

/-- Python `x[0]`: first element of a list (`IndexError` when empty),
first character of a string; anything else raises `TypeError`. -/
def getIndex0 : Json → Except PyErr Json
  | .arr [] => .error .indexError
  | .arr (x :: _) => .ok x
  | .str s =>
      match s.data with
      | [] => .error .indexError
      | c :: _ => .ok (.str (String.singleton c))
  | _ => .error .typeError

/-- Python `d.get(k, default)`: only dictionaries have `.get`; any other
value raises `AttributeError`. -/
def dictGet (j : Json) (k : String) (dflt : Json) : Except PyErr Json :=
  match j with
  | .obj fields =>
      match fields.lookup k with
      | some v => .ok v
      | none => .ok dflt
  | _ => .error .attributeError

/-- Python `d[k]` with a string key: dictionary lookup (`KeyError` when
the key is absent); a non-dictionary raises `TypeError`. -/
def getItem (j : Json) (k : String) : Except PyErr Json :=
  match j with
  | .obj fields =>
      match fields.lookup k with
      | some v => .ok v
      | none => .error .keyError
  | _ => .error .typeError

/-- Python `k in it` for the work item (by the time the year loop runs,
`it.get` has already raised on any non-dictionary). -/
def keyMem (j : Json) (k : String) : Bool :=
  match j with
  | .obj fields => (fields.lookup k).isSome
  | _ => false

/-- Python truthiness, as used by `if doi`. -/
def jsonTruthy : Json → Bool
  | .null => false
  | .str s => s != ""
  | .num n => n != 0
  | .arr l => !l.isEmpty
  | .obj f => !f.isEmpty

/-- The single-quote character, used by Python `str()` on strings inside
containers. -/
def sq : String := String.singleton (Char.ofNat 39)

mutual

/-- Python `repr()` of a JSON value (strings quoted), which is also what
`str()` produces on lists and dictionaries. -/
def pyRepr : Json → String
  | .null => "None"
  | .str s => sq ++ s ++ sq
  | .num n => toString n
  | .arr l => "[" ++ pyReprElems l ++ "]"
  | .obj f => "\x7b" ++ pyReprFields f ++ "\x7d"

/-- Comma-separated `repr` of list elements. -/
def pyReprElems : List Json → String
  | [] => ""
  | [x] => pyRepr x
  | x :: xs => pyRepr x ++ ", " ++ pyReprElems xs

/-- Comma-separated `repr` of dictionary entries. -/
def pyReprFields : List (String × Json) → String
  | [] => ""
  | [(k, v)] => sq ++ k ++ sq ++ ": " ++ pyRepr v
  | (k, v) :: xs => sq ++ k ++ sq ++ ": " ++ pyRepr v ++ ", " ++ pyReprFields xs

end

/-- Python `str()` of a JSON value, as interpolated at f-string top level
(bare strings; containers print as their `repr`). -/
def pyStr : Json → String
  | .null => "None"
  | .str s => s
  | .num n => toString n
  | j => pyRepr j

/-- One iteration of the year loop for one key: `if key in it:` guards a
`try: ano = it[key]["date-parts"][0][0]` whose exceptions are swallowed
(`except: pass`), so a failed extraction yields `none` and the next key
is tried. -/
def tryKeyYear (it : Json) (key : String) : Option Json :=
  if keyMem it key then
    (do
      let d ← getItem it key
      let dp ← getItem d "date-parts"
      let first ← getIndex0 dp
      getIndex0 first).toOption
  else none

/-- The full year loop over `["published-print", "published-online",
"issued"]`: the first successful extraction wins (`break`); when all three
fail, `ano` keeps its initial `None`. -/
def extractYear (it : Json) : Option Json :=
  match tryKeyYear it "published-print" with
  | some y => some y
  | none =>
      match tryKeyYear it "published-online" with
      | some y => some y
      | none => tryKeyYear it "issued"

/-- One normalized literature record: the Python dict with keys
`titulo`, `ano`, `doi`, `link` built per item. -/
structure Artigo where
  titulo : Json
  ano : Option Json
  doi : Json
  link : Option String

/-- The body of the `for it in items:` loop, which runs OUTSIDE the
`try/except` of the network call: `it.get("title", ["Sem título"])[0]`
can raise (for instance `IndexError` on an empty title list), while the
year extraction is internally best-effort. -/
def normalizeItem (it : Json) : Except PyErr Artigo := do
  let rawTitle ← dictGet it "title" (.arr [.str "Sem título"])
  let titulo ← getIndex0 rawTitle
  let doi ← dictGet it "DOI" .null
  let link := if jsonTruthy doi then some ("https://doi.org/" ++ pyStr doi) else none
  pure { titulo := titulo, ano := extractYear it, doi := doi, link := link }

/-- Python iteration for `for it in items`: lists iterate their elements,
strings their characters, dictionaries their keys; other values raise
`TypeError`. -/
def pyIter : Json → Except PyErr (List Json)
  | .arr xs => .ok xs
  | .str s => .ok (s.data.map (fun c => .str (String.singleton c)))
  | .obj fs => .ok (fs.map (fun f => .str f.1))
  | _ => .error .typeError

/-- Outcome of `requests.get` / `raise_for_status()` / `resp.json()`:
either an exception raised inside the `try` block (timeout, connection
error, non-2xx status, non-JSON body), carrying its message, or a parsed
JSON body. The transport lives outside `src/`, so it is a parameter of
the embedding. -/
inductive HttpOutcome where
  | failure (msg : String)
  | success (body : Json)

/-- A network stub: what the Crossref endpoint does for a given query and
row count. -/
abbrev Network := String → Nat → HttpOutcome

/-- The warning recorded via `st.warning` when the `try` block raises. -/
def crossrefWarn (msg : String) : String :=
  "⚠️ Erro ao acessar a API da Crossref: " ++ msg

/-- Message of a caught Python exception, as interpolated by `f"...{e}"`. -/
def pyErrMsg : PyErr → String
  | .indexError => "list index out of range"
  | .keyError => "KeyError"
  | .typeError => "TypeError"
  | .attributeError => "AttributeError"

/-- Observable outcome of one `buscar_artigos_crossref` call: the
returned value (or the propagated exception), the warnings shown, and
whether the network request was issued. -/
structure SearchOutcome where
  result : Except PyErr (List Artigo)
  warnings : List String
  networkCalled : Bool

/-- The two `.get` steps performed inside the `try` block:
`resp.json().get("message", {}).get("items", [])` (an `AttributeError`
from a non-dictionary shape is caught by the surrounding `except`). -/
def extractItems (body : Json) : Except PyErr Json := do
  let message ← dictGet body "message" (.obj [])
  dictGet message "items" (.arr [])

/-- `buscar_artigos_crossref(query, rows)`. `if not query:` returns `[]`
before any request - but only the empty string is falsy. Any exception
inside the `try` (transport, status, JSON decoding, `message`/`items`
extraction) becomes a warning plus `[]`. The per-item loop runs after and
outside the `try`, so its exceptions propagate to the caller. -/
def buscar_artigos_crossref (net : Network) (query : String) (rows : Nat) : SearchOutcome :=
  if query = "" then
    { result := .ok [], warnings := [], networkCalled := false }
  else
    match net query rows with
    | .failure msg =>
        { result := .ok [], warnings := [crossrefWarn msg], networkCalled := true }
    | .success body =>
        match extractItems body with
        | .error e =>
            { result := .ok [], warnings := [crossrefWarn (pyErrMsg e)], networkCalled := true }
        | .ok items =>
            match pyIter items with
            | .error e => { result := .error e, warnings := [], networkCalled := true }
            | .ok its =>
                { result := its.mapM normalizeItem, warnings := [], networkCalled := true }

/-- The request degraded in a way the `try/except` absorbs: a transport
or JSON-decoding failure, or a body whose `message`/`items` extraction
raises. -/
def requestLevelFailure (o : HttpOutcome) : Prop :=
  match o with
  | .failure _ => True
  | .success body => ∃ e, extractItems body = .error e

/-- A syntactically valid Crossref body whose single work item carries an
empty `title` list. -/
def itemEmptyTitle : Json := .obj [("title", .arr [])]

/-- Body wrapping `itemEmptyTitle` in the usual `message.items` shape. -/
def badBody : Json := .obj [("message", .obj [("items", .arr [itemEmptyTitle])])]

/-- Endpoint stub returning `badBody` for every request. -/
def badNet : Network := fun _ _ => .success badBody

/-- A fully well-formed work item (title, DOI, `issued` date). -/
def goodItem : Json :=
  .obj [("title", .arr [.str "Tratamento de agua"]),
        ("DOI", .str "10.1000/xyz"),
        ("issued", .obj [("date-parts", .arr [.arr [.num 2020, .num 5]])])]

/-- Body wrapping `goodItem` in the usual `message.items` shape. -/
def goodBody : Json := .obj [("message", .obj [("items", .arr [goodItem])])]

/-- Endpoint stub returning `goodBody` for every request. -/
def goodNet : Network := fun _ _ => .success goodBody

/-- Endpoint stub whose request always raises (e.g. a timeout). -/
def downNet : Network := fun _ _ => .failure "timeout"

/-- The record `buscar_artigos_crossref` builds from `goodItem`. -/
def artigoAgua : Artigo :=
  { titulo := .str "Tratamento de agua"
    ano := some (.num 2020)
    doi := .str "10.1000/xyz"
    link := some "https://doi.org/10.1000/xyz" }

/-- A work item whose only date field is `issued` shaped `[[2020, 5]]`. -/
def issuedOnlyItem : Json :=
  .obj [("issued", .obj [("date-parts", .arr [.arr [.num 2020, .num 5]])])]

/-- Whitespace characters relevant to `textwrap.dedent` (its margin regex
is `[ \t]`). -/
def isWsChar (c : Char) : Bool := c = ' ' || c = '\t'

/-- Python `text.split('\n')` on raw character data. -/
def splitNl : List Char → List (List Char)
  | [] => [[]]
  | c :: cs =>
      if c = '\n' then [] :: splitNl cs
      else
        match splitNl cs with
        | [] => [[c]]
        | l :: ls => (c :: l) :: ls

/-- Re-join lines with newlines (inverse of `splitNl`). -/
def joinNl : List (List Char) → List Char
  | [] => []
  | [l] => l
  | l :: ls => l ++ '\n' :: joinNl ls

/-- A line consisting solely of whitespace (at least one character): the
`^[ \t]+$` lines that `dedent` normalizes to empty. -/
def blankLine (l : List Char) : Bool := !l.isEmpty && l.all isWsChar

/-- A line containing at least one non-whitespace character: exactly the
lines whose indent participates in the margin computation. -/
def hasText (l : List Char) : Bool := l.any (fun c => !isWsChar c)

/-- The `[ \t]*` leading run of a line. -/
def indentOf (l : List Char) : List Char := l.takeWhile isWsChar

/-- Longest common prefix of two character lists. -/
def commonPrefix2 : List Char → List Char → List Char
  | a :: as, b :: bs => if a = b then a :: commonPrefix2 as bs else []
  | _, _ => []

/-- The margin `textwrap.dedent` computes: the longest common prefix of
the indents of all lines that contain non-whitespace text. -/
def marginOf (ls : List (List Char)) : List Char :=
  match (ls.filter hasText).map indentOf with
  | [] => []
  | i :: is => is.foldl commonPrefix2 i

/-- The regex substitution removing `(?m)^margin`, per line: strip the
margin when the line starts with it. -/
def stripMargin (margin l : List Char) : List Char :=
  if margin.isPrefixOf l then l.drop margin.length else l

/-- `textwrap.dedent` on raw character data: normalize whitespace-only
lines to empty, compute the margin over the resulting lines, and strip
it from the start of each line. -/
def dedentData (s : List Char) : List Char :=
  let ls := (splitNl s).map (fun l => if blankLine l then [] else l)
  joinNl (ls.map (stripMargin (marginOf ls)))

/-- `textwrap.dedent`. -/
def dedent (s : String) : String := String.mk (dedentData s.data)

/-- `x or "não informado"`, as applied to the optional sub-topic and
keyword inputs inside the f-string. -/
def orNaoInformado : Option String → String
  | some s => if s = "" then "não informado" else s
  | none => "não informado"

/-- `repr` of one catalog cell inside `to_dict(orient="records")` output
(pandas renders a missing value as `nan`). -/
def pyReprCell : Cell → String
  | some s => sq ++ s ++ sq
  | none => "nan"

/-- `repr` of one record dictionary of `revistas.to_dict(orient="records")`. -/
def pyReprRow (r : Row) : String :=
  "\x7b" ++ String.intercalate ", " (r.map (fun p => sq ++ p.1 ++ sq ++ ": " ++ pyReprCell p.2))
    ++ "\x7d"

/-- The `{revistas_records}` interpolation: `str()` of the list of record
dictionaries. -/
def pyReprRecords (df : DataFrame) : String :=
  "[" ++ String.intercalate ", " (df.rows.map pyReprRow) ++ "]"

/-- `repr` of one normalized article dictionary. -/
def pyReprArtigo (a : Artigo) : String :=
  "\x7b" ++ sq ++ "titulo" ++ sq ++ ": " ++ pyRepr a.titulo ++ ", "
    ++ sq ++ "ano" ++ sq ++ ": " ++ (match a.ano with | some j => pyRepr j | none => "None")
    ++ ", " ++ sq ++ "doi" ++ sq ++ ": " ++ pyRepr a.doi ++ ", "
    ++ sq ++ "link" ++ sq ++ ": "
    ++ (match a.link with | some s => sq ++ s ++ sq | none => "None") ++ "\x7d"

/-- The `{artigos}` interpolation: `str()` of the list of article
dictionaries. -/
def pyReprArtigos (l : List Artigo) : String :=
  "[" ++ String.intercalate ", " (l.map pyReprArtigo) ++ "]"

/-- Literal prompt text from the start of the f-string up to `{area}`. -/
def promptSeg1 : String := "\n    Você é um consultor científico especializado em avaliação de periódicos\n    e estratégias de publicação, com foco no sistema Qualis brasileiro.\n\n    Contexto do aluno:\n    - Área principal do artigo: "

/-- Literal prompt text between `{area}` and the sub-topic interpolation. -/
def promptSeg2 : String := "\n    - Subárea / tema específico: "

/-- Literal prompt text before the keyword interpolation. -/
def promptSeg3 : String := "\n    - Palavras-chave fornecidas pelo aluno: "

/-- Literal prompt text before `{revistas_records}`. -/
def promptSeg4 : String := "\n\n    Revistas disponíveis (dados da base interna):\n    "

/-- Literal prompt text before `{artigos}`. -/
def promptSeg5 : String := "\n\n    Artigos encontrados a partir das palavras-chave (se houver):\n    "

/-- Literal prompt text from after `{artigos}` (the task specification,
sections 1-4) up to the ten-record cap instruction. -/
def promptSeg6a : String := "\n\n    TAREFA:\n    Monte um RELATÓRIO ESTRUTURADO em português, com as seguintes seções:\n\n    1. Visão geral da área e subárea\n       - Explique em 1 parágrafo curto o foco da área/subárea informada.\n\n    2. Melhores revistas para publicação\n       - Liste as principais revistas indicadas, com:\n         * nome do periódico\n         * estrato Qualis (se disponível)\n         * breve descrição do foco/escopo\n         * em que tipo de trabalho elas costumam aceitar (ex.: relatos de caso, artigos originais, revisões, etc.)\n         * link do site ou do sistema de submissão (se o campo \x27link_site\x27 ou similar existir nos dados)\n\n    3. Template e instruções para submissão\n       - Para cada revista listada, indique:\n         * se há link ou informação de template/instruções aos autores nos dados fornecidos\n         * oriente o aluno sobre onde encontrar essas informações no site da revista\n         * explique brevemente quais são os pontos críticos de formatação a observar (tamanho do resumo, número de palavras, estrutura IMRAD, normas de citação, etc.)\n\n    4. Artigos mais relevantes na temática\n       - Caso haja artigos na seção \x27artigos encontrados\x27:\n         * "

/-- The cap instruction of section 4: discuss at most 10 records. -/
def instrCap10 : String := "selecione até 10 mais relevantes"

/-- Literal prompt text between the cap instruction and the
anti-invention instruction (sections 4-7 and the IMPORTANTE header). -/
def promptSeg6b : String := "\n         * apresente em lista com: título, ano e DOI/link\n         * comente, em 1–2 frases, o foco principal de cada artigo.\n\n    5. Principais palavras-chave da área\n       - Com base nos artigos listados e na temática:\n         * indique um conjunto de 8 a 15 palavras-chave sugeridas em português\n         * se possível, sugira também versão em inglês entre parênteses.\n\n    6. O que está sendo pesquisado atualmente\n       - Descreva em 2–4 parágrafos:\n         * principais linhas de pesquisa atuais na área/subárea\n         * lacunas frequentes (o que ainda falta estudar)\n         * tendências emergentes.\n\n    7. Sugestão de organização do artigo do aluno\n       - Proponha uma estrutura de artigo (tópicos numerados) incluindo:\n         * título provisório\n         * sugestão de resumo (em 1 parágrafo)\n         * tópicos da introdução (em forma de itens)\n         * possíveis objetivos geral e específicos\n         * sugestão de estrutura para métodos, resultados e discussão\n         * considerações finais e implicações práticas.\n\n    IMPORTANTE:\n    - Use linguagem clara, direta, sem floreios desnecessários.\n    - "

/-- The anti-invention instruction: use only supplied data, never invent
identifiers or journal names. -/
def instrNoInvent : String := "Não invente DOI ou revistas; use apenas os dados fornecidos."

/-- Literal prompt text between the two IMPORTANTE instructions. -/
def promptSeg6c : String := "\n    - "

/-- The missing-field instruction: flag unavailable data instead of
fabricating it. -/
def instrFlagMissing : String := "Se alguma informação não estiver disponível nos dados, deixe claro que não foi fornecida e faça uma orientação genérica."

/-- Trailing literal prompt text before the closing quotes. -/
def promptSeg6d : String := "\n    "

/-- The f-string `user_prompt` of `gerar_relatorio_ia`: fixed literal
segments interleaved with the five interpolations, in source order. -/
def user_prompt (area : String) (subarea : Option String) (palavras_chave : Option String)
    (revistas_records artigos : String) : String :=
  promptSeg1 ++ area ++ promptSeg2 ++ orNaoInformado subarea ++ promptSeg3
    ++ orNaoInformado palavras_chave ++ promptSeg4 ++ revistas_records ++ promptSeg5
    ++ artigos ++ promptSeg6a ++ instrCap10 ++ promptSeg6b ++ instrNoInvent
    ++ promptSeg6c ++ instrFlagMissing ++ promptSeg6d

/-- One chat message of the request payload. -/
structure Message where
  role : String
  content : String

/-- The fixed system-role description sent with every request. -/
def system_content : String := "Você é um consultor de publicação científica extremamente objetivo, especializado em Qualis brasileiro, escolha de periódicos e estratégia de publicação."

/-- The user-message content: `textwrap.dedent(user_prompt)` with the
journal records serialized by `to_dict(orient="records")` and the article
list interpolated by `str()`. -/
def contextoPayload (area : String) (subarea : Option String) (revistas : DataFrame)
    (artigos : List Artigo) (palavras_chave : Option String) : String :=
  dedent (user_prompt area subarea palavras_chave (pyReprRecords revistas)
    (pyReprArtigos artigos))

/-- The `messages` list assembled by `gerar_relatorio_ia` and handed to
the chat-completion call: the fixed system message plus the dedented user
prompt. -/
def gerar_messages (area : String) (subarea : Option String) (revistas : DataFrame)
    (artigos : List Artigo) (palavras_chave : Option String) : List Message :=
  [{ role := "system", content := system_content },
   { role := "user", content := contextoPayload area subarea revistas artigos palavras_chave }]

instance : IsTotal Row (fun a b => rowRank a ≤ rowRank b) :=
  ⟨fun a b => Nat.le_total _ _⟩

instance : IsTrans Row (fun a b => rowRank a ≤ rowRank b) :=
  ⟨fun _ _ _ h₁ h₂ => Nat.le_trans h₁ h₂⟩

/-- Any row selected by the narrowed mask is selected by the plain `area`
mask: the sub-topic branch only conjoins a second condition. -/
theorem rowMask_narrows (df : DataFrame) (area s : String) (x : Row)
    (hx : rowMask df area (some s) x = true) : rowMask df area none x = true := by
  unfold rowMask at hx ⊢
  simp only at hx ⊢
  by_cases hs : s ≠ ""
  · rw [if_pos hs] at hx
    by_cases h1 : "escopo" ∈ df.cols
    · rw [if_pos h1, Bool.and_eq_true] at hx
      exact hx.1
    · rw [if_neg h1] at hx
      by_cases h2 : "subarea" ∈ df.cols
      · rw [if_pos h2, Bool.and_eq_true] at hx
        exact hx.1
      · rwa [if_neg h2] at hx
  · rwa [if_neg hs] at hx

/-- C2: for every catalog with an `estrato_qualis` column, the rows
returned by `filtrar_revistas` are sorted non-decreasingly by the fixed
tier ranking (`A1` rank 0 … `C` rank 8, anything else - including `NaN` -
rank 9), and in particular no row with an out-of-vocabulary tier ever
precedes a row with a recognized tier; the ranking is total, so no tier
value can make the sort fail. -/
theorem filtrar_sorted_by_tier (df : DataFrame) (area : String) (subarea : Option String)
    (h : "estrato_qualis" ∈ df.cols) :
    (filtrar_core df area subarea).rows.Pairwise (fun a b => rowRank a ≤ rowRank b) ∧
    (filtrar_core df area subarea).rows.Pairwise
      (fun a b => rowRank b < ordem_qualis.length → rowRank a < ordem_qualis.length) := by
  have hrows : (filtrar_core df area subarea).rows
      = List.insertionSort (fun a b => rowRank a ≤ rowRank b)
          ((df.rows.filter (rowMask df area subarea)).map astypeQualis) := by
    simp [filtrar_core, h]
  have hsorted : (filtrar_core df area subarea).rows.Pairwise
      (fun a b => rowRank a ≤ rowRank b) := by
    rw [hrows]
    exact List.sorted_insertionSort (fun a b => rowRank a ≤ rowRank b) _
  exact ⟨hsorted, hsorted.imp (fun hab hb => Nat.lt_of_le_of_lt hab hb)⟩

/-- Witness for `filtrar_sorted_by_tier` at a concrete catalog. -/
theorem filtrar_sorted_by_tier_witness :
    ("estrato_qualis" ∈ dfTier.cols) ∧
    ((filtrar_core dfTier "Engenharia" none).rows.Pairwise
        (fun a b => rowRank a ≤ rowRank b) ∧
      (filtrar_core dfTier "Engenharia" none).rows.Pairwise
        (fun a b => rowRank b < ordem_qualis.length → rowRank a < ordem_qualis.length)) :=
  ⟨by decide, filtrar_sorted_by_tier dfTier "Engenharia" none (by decide)⟩

/-- C5: when the catalog exposes a scope/subarea column, filtering with a
non-empty sub-topic only narrows the plain `area` filter - every returned
row is also returned by the sub-topic-free call. -/
theorem filtrar_subtopic_narrows (df : DataFrame) (area s : String) (hs : s ≠ "")
    (hcol : "escopo" ∈ df.cols ∨ "subarea" ∈ df.cols) :
    ∀ r ∈ (filtrar_core df area (some s)).rows, r ∈ (filtrar_core df area none).rows := by
  intro r hr
  by_cases hE : "estrato_qualis" ∈ df.cols
  · simp only [filtrar_core, if_pos hE, List.mem_insertionSort, List.mem_map,
      List.mem_filter] at hr ⊢
    obtain ⟨x, ⟨hxmem, hxmask⟩, rfl⟩ := hr
    exact ⟨x, ⟨hxmem, rowMask_narrows df area s x hxmask⟩, rfl⟩
  · simp only [filtrar_core, if_neg hE, List.mem_filter] at hr ⊢
    exact ⟨hr.1, rowMask_narrows df area s r hr.2⟩

/-- Witness for `filtrar_subtopic_narrows` at a concrete catalog. -/
theorem filtrar_subtopic_narrows_witness :
    ("saneamento" ≠ "" ∧ ("escopo" ∈ dfEscopo.cols ∨ "subarea" ∈ dfEscopo.cols)) ∧
    (∀ r ∈ (filtrar_core dfEscopo "Engenharia" (some "saneamento")).rows,
      r ∈ (filtrar_core dfEscopo "Engenharia" none).rows) :=
  ⟨⟨by decide, by decide⟩,
    filtrar_subtopic_narrows dfEscopo "Engenharia" "saneamento" (by decide) (by decide)⟩

/-- C6: for a catalog with no `estrato_qualis` column, `filtrar_revistas`
performs no reordering: its rows are a sublist of the catalog rows (the
matching rows in original order), and a row is returned exactly when it is
a catalog row matching the mask. -/
theorem filtrar_no_tier_keeps_order (df : DataFrame) (area : String) (subarea : Option String)
    (h : "estrato_qualis" ∉ df.cols) :
    (filtrar_core df area subarea).rows.Sublist df.rows ∧
    ∀ r, r ∈ (filtrar_core df area subarea).rows ↔
      r ∈ df.rows ∧ rowMask df area subarea r = true := by
  simp only [filtrar_core, if_neg h]
  exact ⟨List.filter_sublist _, fun r => List.mem_filter⟩

/-- Witness for `filtrar_no_tier_keeps_order` at a concrete catalog. -/
theorem filtrar_no_tier_keeps_order_witness :
    ("estrato_qualis" ∉ dfNoTier.cols) ∧
    ((filtrar_core dfNoTier "Engenharia" none).rows.Sublist dfNoTier.rows ∧
      ∀ r, r ∈ (filtrar_core dfNoTier "Engenharia" none).rows ↔
        r ∈ dfNoTier.rows ∧ rowMask dfNoTier "Engenharia" none r = true) :=
  ⟨by decide, filtrar_no_tier_keeps_order dfNoTier "Engenharia" none (by decide)⟩

/-- C8: a missing or malformed catalog file makes `load_revistas` fail
with the very error raised by the reader (there is no `try/except` around
`pd.read_csv`), and `filtrar_revistas` - the catalog-dependent pipeline
step - fails with the same error instead of proceeding. -/
theorem load_failure_propagates (e : String) (area : String) (subarea : Option String) :
    (load_revistas (.failure e) ⟨none⟩).1 = .error e ∧
    (filtrar_revistas (.failure e) area subarea ⟨none⟩).1 = .error e := by
  simp [load_revistas, filtrar_revistas]

/-- C9: with the catalog cached, a `filtrar_revistas` call leaves the
cache state exactly as it was (it filters and converts the tier column on
a copy), so a later `load_revistas` still observes the identical table
and a later filter call runs against that same table. -/
theorem filtrar_leaves_catalog_unchanged (read read₂ : ReadResult)
    (area area₂ : String) (subarea subarea₂ : Option String)
    (s : CacheState) (df : DataFrame) (h : s.cached = some df) :
    (filtrar_revistas read area subarea s).2 = s ∧
    (load_revistas read₂ (filtrar_revistas read area subarea s).2).1 = .ok df ∧
    (filtrar_revistas read₂ area₂ subarea₂ (filtrar_revistas read area subarea s).2).1
      = .ok (filtrar_core df area₂ subarea₂) := by
  simp [filtrar_revistas, load_revistas, h]

/-- Witness for `filtrar_leaves_catalog_unchanged` at a concrete cache. -/
theorem filtrar_leaves_catalog_unchanged_witness :
    ((⟨some dfTier⟩ : CacheState).cached = some dfTier) ∧
    ((filtrar_revistas (.failure "io error") "Engenharia" none ⟨some dfTier⟩).2
        = ⟨some dfTier⟩ ∧
      (load_revistas (.failure "io error")
          (filtrar_revistas (.failure "io error") "Engenharia" none ⟨some dfTier⟩).2).1
        = .ok dfTier ∧
      (filtrar_revistas (.failure "io error") "Direito" none
          (filtrar_revistas (.failure "io error") "Engenharia" none ⟨some dfTier⟩).2).1
        = .ok (filtrar_core dfTier "Direito" none)) :=
  ⟨rfl, filtrar_leaves_catalog_unchanged (.failure "io error") (.failure "io error")
    "Engenharia" "Direito" none none ⟨some dfTier⟩ dfTier rfl⟩

/-- C1 counterexample: a response whose only work item has an empty
`title` list makes `buscar_artigos_crossref` propagate an uncaught
`IndexError` (the per-item loop runs outside the `try/except`), instead
of returning an empty sequence with a warning. -/
theorem buscar_raises_on_empty_title :
    (buscar_artigos_crossref badNet "tratamento de agua" 5).result
      = .error .indexError := rfl

/-- C1 amended: any failure of the network call itself or of decoding the
body down to the `items` value (which covers malformed, non-JSON and
non-dictionary bodies) is absorbed: the search returns an empty sequence,
records a warning, and the request was indeed issued. -/
theorem buscar_degrades_on_request_failure (net : Network) (query : String) (rows : Nat)
    (hq : query ≠ "") (hf : requestLevelFailure (net query rows)) :
    (buscar_artigos_crossref net query rows).result = .ok [] ∧
    (buscar_artigos_crossref net query rows).warnings ≠ [] ∧
    (buscar_artigos_crossref net query rows).networkCalled = true := by
  cases hnet : net query rows with
  | failure msg =>
      simp [buscar_artigos_crossref, if_neg hq, hnet]
  | success body =>
      rw [hnet] at hf
      obtain ⟨e, he⟩ := (hf : ∃ e, extractItems body = .error e)
      simp [buscar_artigos_crossref, if_neg hq, hnet, he]

/-- Witness for `buscar_degrades_on_request_failure` with a timing-out
endpoint. -/
theorem buscar_degrades_on_request_failure_witness :
    ("agua" ≠ "" ∧ requestLevelFailure (downNet "agua" 3)) ∧
    ((buscar_artigos_crossref downNet "agua" 3).result = .ok [] ∧
      (buscar_artigos_crossref downNet "agua" 3).warnings ≠ [] ∧
      (buscar_artigos_crossref downNet "agua" 3).networkCalled = true) :=
  ⟨⟨by decide, trivial⟩,
    buscar_degrades_on_request_failure downNet "agua" 3 (by decide) trivial⟩

/-- C3 counterexample: the guard `if not query:` only short-circuits the
empty string. The whitespace-only query `" "` is truthy, so the network
request IS issued and (against this endpoint) a non-empty result is
returned. -/
theorem buscar_whitespace_calls_network :
    " ".data.all Char.isWhitespace = true ∧ " " ≠ "" ∧
    (buscar_artigos_crossref goodNet " " 5).networkCalled = true ∧
    (buscar_artigos_crossref goodNet " " 5).result = .ok [artigoAgua] :=
  ⟨by decide, by decide, rfl, rfl⟩

/-- C3 amended: for every endpoint and every result count, the empty
query returns an empty sequence, records no warning, and issues no
network call. -/
theorem buscar_empty_query_short_circuits (net : Network) (rows : Nat) :
    buscar_artigos_crossref net "" rows
      = { result := .ok [], warnings := [], networkCalled := false } := rfl

/-- C4: the year is extracted by trying `published-print`, then
`published-online`, then `issued`, taking the leading component of the
first date that parses; the normalized record carries exactly that value;
an item whose only date field is `issued` shaped `[[2020, 5]]` yields
year `2020`; an item with no parseable date field yields an absent year
(and the extraction itself cannot raise - it is `Option`-valued). -/
theorem year_extraction_priority (it : Json) :
    (∀ y, tryKeyYear it "published-print" = some y → extractYear it = some y) ∧
    (tryKeyYear it "published-print" = none →
      ∀ y, tryKeyYear it "published-online" = some y → extractYear it = some y) ∧
    (tryKeyYear it "published-print" = none → tryKeyYear it "published-online" = none →
      extractYear it = tryKeyYear it "issued") ∧
    (∀ a, normalizeItem it = .ok a → a.ano = extractYear it) ∧
    extractYear issuedOnlyItem = some (.num 2020) ∧
    extractYear (.obj [("title", .arr [.str "x"])]) = none := by
  refine ⟨?_, ?_, ?_, ?_, rfl, rfl⟩
  · intro y hy
    unfold extractYear
    rw [hy]
  · intro h1 y hy
    unfold extractYear
    rw [h1, hy]
  · intro h1 h2
    unfold extractYear
    rw [h1, h2]
  · intro a ha
    unfold normalizeItem at ha
    simp only [bind, Except.bind, pure, Except.pure, Functor.map, Except.map] at ha
    repeat' split at ha
    all_goals cases ha <;> rfl

/-- Witness for `year_extraction_priority`: the `issued`-only item has no
print or online date, so its year comes from `issued`; and the
fully-formed item normalizes to a record carrying its extracted year. -/
theorem year_extraction_priority_witness :
    (tryKeyYear issuedOnlyItem "published-print" = none ∧
      tryKeyYear issuedOnlyItem "published-online" = none ∧
      extractYear issuedOnlyItem = tryKeyYear issuedOnlyItem "issued") ∧
    (normalizeItem goodItem = .ok artigoAgua ∧ artigoAgua.ano = extractYear goodItem) :=
  ⟨⟨rfl, rfl, (year_extraction_priority issuedOnlyItem).2.2.1 rfl rfl⟩,
    ⟨rfl, (year_extraction_priority goodItem).2.2.2.1 artigoAgua rfl⟩⟩

/-- `splitNl` always produces at least one line. -/
theorem splitNl_ne_nil (s : List Char) : ∃ l ls, splitNl s = l :: ls := by
  induction s with
  | nil => exact ⟨[], [], rfl⟩
  | cons c cs ih =>
      obtain ⟨l, ls, h⟩ := ih
      by_cases hc : c = '\n'
      · exact ⟨[], splitNl cs, by simp [splitNl, hc]⟩
      · exact ⟨c :: l, ls, by simp [splitNl, hc, h]⟩

/-- A newline-free prefix of the text is a prefix of its first line. -/
theorem prefix_first_line (pat : List Char) : ∀ s : List Char, '\n' ∉ pat → pat <+: s →
    ∀ l ls, splitNl s = l :: ls → pat <+: l := by
  induction pat with
  | nil => intro s _ _ l ls _; exact List.nil_prefix
  | cons p ps ih =>
      intro s hnl hpre l ls hsplit
      obtain ⟨t, ht⟩ := hpre
      have hp : p ≠ '\n' := fun h => hnl (h ▸ List.mem_cons_self p ps)
      subst ht
      obtain ⟨l₀, ls₀, h₀⟩ := splitNl_ne_nil (ps ++ t)
      rw [List.cons_append] at hsplit
      rw [show splitNl (p :: (ps ++ t)) = (p :: l₀) :: ls₀ by simp [splitNl, hp, h₀]]
        at hsplit
      injection hsplit with h1 h2
      subst h1
      have hps : ps <+: l₀ :=
        ih (ps ++ t) (fun h => hnl (List.mem_cons_of_mem p h)) ⟨t, rfl⟩ l₀ ls₀ h₀
      obtain ⟨u, hu⟩ := hps
      exact ⟨u, by rw [List.cons_append, hu]⟩

/-- A newline-free infix of the text is an infix of one of its lines. -/
theorem infix_some_line (pat : List Char) (hnl : '\n' ∉ pat) :
    ∀ s : List Char, pat <:+: s → ∃ l ∈ splitNl s, pat <:+: l := by
  intro s
  induction s with
  | nil =>
      intro h
      rw [List.infix_nil] at h
      exact ⟨[], by simp [splitNl], h ▸ List.nil_infix⟩
  | cons c cs ih =>
      intro h
      rcases List.infix_cons_iff.mp h with hpre | hinf
      · obtain ⟨l, ls, hsplit⟩ := splitNl_ne_nil (c :: cs)
        have := prefix_first_line pat (c :: cs) hnl hpre l ls hsplit
        exact ⟨l, by rw [hsplit]; exact List.mem_cons_self l ls, this.isInfix⟩
      · obtain ⟨l, hl, hpl⟩ := ih hinf
        by_cases hc : c = '\n'
        · refine ⟨l, ?_, hpl⟩
          rw [show splitNl (c :: cs) = [] :: splitNl cs by simp [splitNl, hc]]
          exact List.mem_cons_of_mem [] hl
        · obtain ⟨l₀, ls₀, h₀⟩ := splitNl_ne_nil cs
          have hs : splitNl (c :: cs) = (c :: l₀) :: ls₀ := by simp [splitNl, hc, h₀]
          rw [h₀] at hl
          rcases List.mem_cons.mp hl with rfl | hl'
          · exact ⟨c :: l, by rw [hs]; exact List.mem_cons_self _ _, List.infix_cons hpl⟩
          · exact ⟨l, by rw [hs]; exact List.mem_cons_of_mem _ hl', hpl⟩

/-- The whitespace run of a line stops inside `pre` when the line
continues with a non-whitespace character right after `pre`. -/
theorem indent_prefix_of_pre (p : Char) (hp : isWsChar p = false) :
    ∀ (pre X : List Char), indentOf (pre ++ p :: X) <+: pre := by
  intro pre
  induction pre with
  | nil =>
      intro X
      rw [show indentOf ([] ++ p :: X) = [] by simp [indentOf, List.takeWhile, hp]]
  | cons a pre' ih =>
      intro X
      by_cases ha : isWsChar a = true
      · rw [show indentOf ((a :: pre') ++ p :: X) = a :: indentOf (pre' ++ p :: X) by
            simp [indentOf, List.takeWhile, ha]]
        obtain ⟨u, hu⟩ := ih X
        exact ⟨u, by rw [List.cons_append, hu]⟩
      · have ha' : isWsChar a = false := by
          rwa [Bool.not_eq_true] at ha
        rw [show indentOf ((a :: pre') ++ p :: X) = [] by
            simp [indentOf, List.takeWhile, ha']]
        exact List.nil_prefix

/-- `commonPrefix2` is a prefix of its first argument. -/
theorem commonPrefix2_prefix_left : ∀ a b : List Char, commonPrefix2 a b <+: a := by
  intro a
  induction a with
  | nil => intro b; cases b <;> simp [commonPrefix2]
  | cons x as ih =>
      intro b
      cases b with
      | nil => simp [commonPrefix2]
      | cons y bs =>
          by_cases hxy : x = y
          · rw [show commonPrefix2 (x :: as) (y :: bs) = x :: commonPrefix2 as bs by
              simp [commonPrefix2, hxy]]
            obtain ⟨u, hu⟩ := ih bs
            exact ⟨u, by rw [List.cons_append, hu]⟩
          · rw [show commonPrefix2 (x :: as) (y :: bs) = [] by simp [commonPrefix2, hxy]]
            exact List.nil_prefix

/-- `commonPrefix2` is a prefix of its second argument. -/
theorem commonPrefix2_prefix_right : ∀ a b : List Char, commonPrefix2 a b <+: b := by
  intro a
  induction a with
  | nil => intro b; cases b <;> simp [commonPrefix2]
  | cons x as ih =>
      intro b
      cases b with
      | nil => simp [commonPrefix2]
      | cons y bs =>
          by_cases hxy : x = y
          · rw [show commonPrefix2 (x :: as) (y :: bs) = x :: commonPrefix2 as bs by
              simp [commonPrefix2, hxy]]
            obtain ⟨u, hu⟩ := ih bs
            exact ⟨u, by rw [hxy, List.cons_append, hu]⟩
          · rw [show commonPrefix2 (x :: as) (y :: bs) = [] by simp [commonPrefix2, hxy]]
            exact List.nil_prefix

/-- A left fold of `commonPrefix2` is a prefix of its seed and of every
folded element. -/
theorem foldl_commonPrefix2_below :
    ∀ (is : List (List Char)) (acc : List Char),
      (is.foldl commonPrefix2 acc <+: acc) ∧
        ∀ x ∈ is, is.foldl commonPrefix2 acc <+: x := by
  intro is
  induction is with
  | nil => intro acc; exact ⟨List.prefix_refl acc, by simp⟩
  | cons i is' ih =>
      intro acc
      obtain ⟨h₁, h₂⟩ := ih (commonPrefix2 acc i)
      refine ⟨h₁.trans (commonPrefix2_prefix_left acc i), ?_⟩
      intro x hx
      rcases List.mem_cons.mp hx with rfl | hx'
      · exact (ih (commonPrefix2 acc x)).1.trans (commonPrefix2_prefix_right acc x)
      · exact h₂ x hx'

/-- The margin is a prefix of the indent of every line with text. -/
theorem marginOf_prefix_indent (ls : List (List Char)) (l : List Char)
    (hl : l ∈ ls) (htext : hasText l = true) : marginOf ls <+: indentOf l := by
  have hmem : indentOf l ∈ (ls.filter hasText).map indentOf :=
    List.mem_map_of_mem indentOf (List.mem_filter.mpr ⟨hl, htext⟩)
  unfold marginOf
  cases hcase : (ls.filter hasText).map indentOf with
  | nil => rw [hcase] at hmem; cases hmem
  | cons i is =>
      rw [hcase] at hmem
      rcases List.mem_cons.mp hmem with heq | hmem'
      · exact heq ▸ (foldl_commonPrefix2_below is i).1
      · exact (foldl_commonPrefix2_below is i).2 _ hmem'

/-- Stripping a margin that is a prefix of `pre` keeps an occurrence
sitting after `pre` intact. -/
theorem stripMargin_keeps_infix (margin pre pat post : List Char)
    (hm : margin <+: pre) :
    pat <:+: stripMargin margin (pre ++ pat ++ post) := by
  have h1 : margin <+: pre ++ pat ++ post := by
    rw [List.append_assoc]
    exact hm.trans (List.prefix_append pre (pat ++ post))
  have hpl : margin.isPrefixOf (pre ++ pat ++ post) = true :=
    List.isPrefixOf_iff_prefix.mpr h1
  have hlen : margin.length ≤ pre.length := hm.length_le
  unfold stripMargin
  rw [if_pos hpl, List.append_assoc, List.drop_append_of_le_length hlen]
  exact ⟨pre.drop margin.length, post, (List.append_assoc _ _ _)⟩

/-- An infix of a member line is an infix of the joined text. -/
theorem infix_joinNl (pat : List Char) :
    ∀ (ls : List (List Char)) (l : List Char), l ∈ ls → pat <:+: l →
      pat <:+: joinNl ls := by
  intro ls
  induction ls with
  | nil => intro l hl _; cases hl
  | cons l' ls' ih =>
      intro l hl hp
      rcases List.mem_cons.mp hl with rfl | hl'
      · cases ls' with
        | nil => simpa [joinNl] using hp
        | cons a b =>
            rw [show joinNl (l :: a :: b) = l ++ '\n' :: joinNl (a :: b) from rfl]
            exact hp.trans (List.prefix_append l _).isInfix
      · cases ls' with
        | nil => cases hl'
        | cons a b =>
            rw [show joinNl (l' :: a :: b) = l' ++ '\n' :: joinNl (a :: b) from rfl]
            exact ((List.infix_cons (ih l hl' hp)).trans
              (List.suffix_append l' _).isInfix)

/-- Dedenting preserves a newline-free occurrence that starts with a
non-whitespace character: the deleted characters (whitespace-only line
bodies and per-line leading margins) are all disjoint from it. -/
theorem dedent_keeps_infix (pat s : List Char) (hne : pat ≠ [])
    (hw : isWsChar pat.headI = false) (hnl : '\n' ∉ pat) (h : pat <:+: s) :
    pat <:+: dedentData s := by
  obtain ⟨p, ps, rfl⟩ : ∃ p ps, pat = p :: ps := by
    cases pat with
    | nil => exact absurd rfl hne
    | cons p ps => exact ⟨p, ps, rfl⟩
  rw [List.headI_cons] at hw
  obtain ⟨l, hl, hpl⟩ := infix_some_line (p :: ps) hnl s h
  have hp_mem : p ∈ l := hpl.sublist.subset (List.mem_cons_self p ps)
  have hblank : blankLine l = false := by
    have hall : l.all isWsChar = false := by
      rw [Bool.eq_false_iff]
      intro hall
      have := List.all_eq_true.mp hall p hp_mem
      rw [hw] at this
      exact Bool.noConfusion this
    simp [blankLine, hall]
  have hl' : l ∈ (splitNl s).map (fun l => if blankLine l then [] else l) :=
    List.mem_map.mpr ⟨l, hl, by simp [hblank]⟩
  have htext : hasText l = true := by
    rw [hasText, List.any_eq_true]
    exact ⟨p, hp_mem, by simp [hw]⟩
  obtain ⟨pre, post, hdecomp⟩ := hpl
  have hmpre :
      marginOf ((splitNl s).map (fun l => if blankLine l then [] else l)) <+: pre := by
    refine (marginOf_prefix_indent _ l hl' htext).trans ?_
    rw [← hdecomp, show pre ++ (p :: ps) ++ post = pre ++ p :: (ps ++ post) by simp]
    exact indent_prefix_of_pre p hw pre (ps ++ post)
  have hstrip : (p :: ps) <:+:
      stripMargin
        (marginOf ((splitNl s).map (fun l => if blankLine l then [] else l))) l := by
    rw [← hdecomp]
    exact stripMargin_keeps_infix _ pre (p :: ps) post hmpre
  show (p :: ps) <:+:
    joinNl (((splitNl s).map (fun l => if blankLine l then [] else l)).map
      (stripMargin (marginOf ((splitNl s).map (fun l => if blankLine l then [] else l)))))
  exact infix_joinNl (p :: ps) _ _ (List.mem_map_of_mem _ hl') hstrip

/-- An infix of a string stays an infix after appending on the right. -/
theorem strInfix_append_right {s t : String} (h : s.data <:+: t.data) (u : String) :
    s.data <:+: (t ++ u).data := by
  rw [String.data_append]
  exact h.trans (List.prefix_append _ _).isInfix

/-- A string is an infix of anything it is appended to on the right. -/
theorem strInfix_suffix_base (x y : String) : y.data <:+: (x ++ y).data := by
  rw [String.data_append]
  exact (List.suffix_append _ _).isInfix

/-- Unfolding of the payload: the user content is the dedented prompt. -/
theorem contextoPayload_eq (area : String) (subarea : Option String)
    (revistas : DataFrame) (artigos : List Artigo) (palavras_chave : Option String) :
    contextoPayload area subarea revistas artigos palavras_chave
      = dedent (user_prompt area subarea palavras_chave (pyReprRecords revistas)
          (pyReprArtigos artigos)) := rfl

/-- Character data of a dedented string. -/
theorem data_dedent (s : String) : (dedent s).data = dedentData s.data := rfl

/-- Side conditions of `dedent_keeps_infix` for the cap instruction. -/
theorem instrCap10_guard : instrCap10.data ≠ [] ∧
    isWsChar instrCap10.data.headI = false ∧ '\n' ∉ instrCap10.data :=
  ⟨by decide, by decide, by decide⟩

/-- Side conditions of `dedent_keeps_infix` for the anti-invention
instruction. -/
theorem instrNoInvent_guard : instrNoInvent.data ≠ [] ∧
    isWsChar instrNoInvent.data.headI = false ∧ '\n' ∉ instrNoInvent.data :=
  ⟨by decide, by decide, by decide⟩

/-- Side conditions of `dedent_keeps_infix` for the missing-field
instruction. -/
theorem instrFlagMissing_guard : instrFlagMissing.data ≠ [] ∧
    isWsChar instrFlagMissing.data.headI = false ∧ '\n' ∉ instrFlagMissing.data :=
  ⟨by decide, by decide, by decide⟩

/-- C7: for every combination of query parameters, journal rows and
literature records, the assembled payload consists of the fixed system
message plus the user message, and the user message contains the three
fixed task-contract instructions: the ten-record cap on the literature
discussion, the anti-invention instruction (use only supplied data, no
invented DOIs or journals), and the flag-missing-fields instruction. -/
theorem static_contract_present (area : String) (subarea : Option String)
    (revistas : DataFrame) (artigos : List Artigo) (palavras_chave : Option String) :
    ((gerar_messages area subarea revistas artigos palavras_chave).map Message.content
      = [system_content, contextoPayload area subarea revistas artigos palavras_chave]) ∧
    instrCap10.data <:+:
      (contextoPayload area subarea revistas artigos palavras_chave).data ∧
    instrNoInvent.data <:+:
      (contextoPayload area subarea revistas artigos palavras_chave).data ∧
    instrFlagMissing.data <:+:
      (contextoPayload area subarea revistas artigos palavras_chave).data := by
  refine ⟨rfl, ?_, ?_, ?_⟩
  · have h1 : instrCap10.data <:+: (user_prompt area subarea palavras_chave
        (pyReprRecords revistas) (pyReprArtigos artigos)).data := by
      unfold user_prompt
      exact strInfix_append_right (strInfix_append_right (strInfix_append_right
        (strInfix_append_right (strInfix_append_right (strInfix_suffix_base _ _) _) _)
          _) _) _
    rw [contextoPayload_eq, data_dedent]
    exact dedent_keeps_infix instrCap10.data _ instrCap10_guard.1
      instrCap10_guard.2.1 instrCap10_guard.2.2 h1
  · have h1 : instrNoInvent.data <:+: (user_prompt area subarea palavras_chave
        (pyReprRecords revistas) (pyReprArtigos artigos)).data := by
      unfold user_prompt
      exact strInfix_append_right (strInfix_append_right (strInfix_append_right
        (strInfix_suffix_base _ _) _) _) _
    rw [contextoPayload_eq, data_dedent]
    exact dedent_keeps_infix instrNoInvent.data _ instrNoInvent_guard.1
      instrNoInvent_guard.2.1 instrNoInvent_guard.2.2 h1
  · have h1 : instrFlagMissing.data <:+: (user_prompt area subarea palavras_chave
        (pyReprRecords revistas) (pyReprArtigos artigos)).data := by
      unfold user_prompt
      exact strInfix_append_right (strInfix_suffix_base _ _) _
    rw [contextoPayload_eq, data_dedent]
    exact dedent_keeps_infix instrFlagMissing.data _ instrFlagMissing_guard.1
      instrFlagMissing_guard.2.1 instrFlagMissing_guard.2.2 h1

/-- C10: the context assembly is a pure function of the query parameters,
the journal table and the literature records - two invocations on
identical inputs produce identical message payloads. -/
theorem gerar_messages_deterministic (area₁ area₂ : String)
    (subarea₁ subarea₂ : Option String) (revistas₁ revistas₂ : DataFrame)
    (artigos₁ artigos₂ : List Artigo) (palavras₁ palavras₂ : Option String)
    (h₁ : area₁ = area₂) (h₂ : subarea₁ = subarea₂) (h₃ : revistas₁ = revistas₂)
    (h₄ : artigos₁ = artigos₂) (h₅ : palavras₁ = palavras₂) :
    gerar_messages area₁ subarea₁ revistas₁ artigos₁ palavras₁
      = gerar_messages area₂ subarea₂ revistas₂ artigos₂ palavras₂ := by
  subst h₁; subst h₂; subst h₃; subst h₄; subst h₅; rfl

/-- Witness for `gerar_messages_deterministic` at concrete inputs. -/
theorem gerar_messages_deterministic_witness :
    gerar_messages "Engenharia" (some "saneamento") dfTier [artigoAgua] (some "agua")
      = gerar_messages "Engenharia" (some "saneamento") dfTier [artigoAgua]
          (some "agua") :=
  gerar_messages_deterministic "Engenharia" "Engenharia" (some "saneamento")
    (some "saneamento") dfTier dfTier [artigoAgua] [artigoAgua] (some "agua")
    (some "agua") rfl rfl rfl rfl rfl

end Qualiscy
